import Mathlib

/-!
Verification of the Windows plugin-registration shim
`src/windows/easy_shared_preferences_plugin_c_api.cpp` of the
`easy_shared_preferences` repository.

The source file defines a single C-linkage entry point,
`EasySharedPreferencesPluginCApiRegisterWithRegistrar`, whose whole body is

  easy_shared_preferences::EasySharedPreferencesPlugin::RegisterWithRegistrar(
      flutter::PluginRegistrarManager::GetInstance()
          ->GetRegistrar<flutter::PluginRegistrarWindows>(registrar));

The shallow embedding below models the opaque pointer-sized handle
(`FlutterDesktopPluginRegistrarRef`) and the wrapper pointer
(`flutter::PluginRegistrarWindows *`) as natural numbers, with `0` playing
the role of the null pointer.  The process-wide singleton registrar manager
is passed as explicit state.  The two external calls the entry point makes
are recorded in an explicit call trace so that ordering, multiplicity and
argument claims can be stated.

The bodies of the two collaborators — flutter's
`PluginRegistrarManager::GetRegistrar` and the plugin class's static
`EasySharedPreferencesPlugin::RegisterWithRegistrar` — are not part of the
provided source; they are modelled from the specification where needed, as
flagged in their doc comments.
-/

namespace EasySharedPrefs

/-- Opaque pointer-sized registrar handle owned and supplied by the host
runtime (`FlutterDesktopPluginRegistrarRef`); `0` models the null handle. -/
abbrev FlutterDesktopPluginRegistrarRef := Nat

/-- Pointer to the windows-specific registrar wrapper
(`flutter::PluginRegistrarWindows *`); `0` models the null pointer. -/
abbrev PluginRegistrarWindows := Nat

/-- State of flutter's process-wide singleton registrar manager: a registry
mapping opaque handles to (pointers to) strongly-typed windows registrar
wrappers. -/
structure PluginRegistrarManager where
  registrars : FlutterDesktopPluginRegistrarRef → PluginRegistrarWindows
deriving Inhabited

/-- Modelled from the spec: `PluginRegistrarManager::GetInstance` returns the
process-wide singleton manager.  Global state is threaded explicitly, so the
singleton is simply the current manager state. -/
def PluginRegistrarManager.GetInstance (g : PluginRegistrarManager) :
    PluginRegistrarManager :=
  g

/-- Modelled from the spec: `PluginRegistrarManager::GetRegistrar<T>`, absent
from the provided source, is per the spec "a process-wide registry mapping
opaque handles to strongly-typed registrar wrappers — this code is purely a
consumer of its lookup operation", which the code "only reads from (a
lookup), never mutates".  It therefore resolves the handle through the
registry and returns the manager state unchanged. -/
def PluginRegistrarManager.GetRegistrar (mgr : PluginRegistrarManager)
    (handle : FlutterDesktopPluginRegistrarRef) :
    PluginRegistrarWindows × PluginRegistrarManager :=
  (mgr.registrars handle, mgr)

/-- Modelled from the spec: a handle is valid when the host-owned manager
resolves it to an actual (non-null) windows registrar wrapper; the spec's
only invariant is "the handle must be valid for the duration of the call",
guaranteed by the host. -/
def PluginRegistrarManager.ValidHandle (mgr : PluginRegistrarManager)
    (handle : FlutterDesktopPluginRegistrarRef) : Prop :=
  mgr.registrars handle ≠ 0

instance (mgr : PluginRegistrarManager)
    (handle : FlutterDesktopPluginRegistrarRef) :
    Decidable (mgr.ValidHandle handle) := by
  unfold PluginRegistrarManager.ValidHandle
  infer_instance

/-- Calls the entry point makes to its two collaborators, in source order:
a wrapper lookup on the singleton manager, and the delegated static plugin
registration. -/
inductive Call where
  | getRegistrar (handle : FlutterDesktopPluginRegistrarRef)
  | registerWithRegistrar (wrapper : PluginRegistrarWindows)
deriving DecidableEq, Repr

/-- Tests whether a recorded call is the delegated plugin registration. -/
def Call.isRegisterCall : Call → Bool
  | Call.registerWithRegistrar _ => true
  | Call.getRegistrar _ => false

/-- Tests whether a recorded call is the manager lookup. -/
def Call.isLookupCall : Call → Bool
  | Call.getRegistrar _ => true
  | Call.registerWithRegistrar _ => false

/-- Modelled from the spec: the behavior of the plugin class's static method
`EasySharedPreferencesPlugin::RegisterWithRegistrar` is repository code not
contained in the provided source.  The spec leaves it underdetermined ("any
failure inside the delegated registration call is the plugin
implementation's responsibility"), so it is an arbitrary function from the
resolved wrapper to a normal return or an error. -/
abbrev PluginRegisterBehavior :=
  PluginRegistrarWindows → Except String Unit

/-- Shallow embedding of the C-linkage entry point
`EasySharedPreferencesPluginCApiRegisterWithRegistrar` from
`src/windows/easy_shared_preferences_plugin_c_api.cpp` lines 7–12.  It
resolves the windows registrar wrapper for `registrar` via the singleton
manager, then invokes the plugin class's static registration method with the
resolved wrapper; it does nothing else.  The parameter
`pluginRegisterWithRegistrar` is the (spec-modelled, underdetermined)
behavior of the delegated call.  The result is the entry point's outcome (a
`void` return modelled as `Unit`, or a propagated failure of the delegated
call), the manager state after the call, and the trace of calls made, in
order. -/
def EasySharedPreferencesPluginCApiRegisterWithRegistrar
    (pluginRegisterWithRegistrar : PluginRegisterBehavior)
    (mgr : PluginRegistrarManager)
    (registrar : FlutterDesktopPluginRegistrarRef) :
    Except String Unit × PluginRegistrarManager × List Call :=
  let resolved := (PluginRegistrarManager.GetInstance mgr).GetRegistrar registrar
  (pluginRegisterWithRegistrar resolved.1,
   resolved.2,
   [Call.getRegistrar registrar, Call.registerWithRegistrar resolved.1])

/-- C and C++ linkage kinds for an exported symbol. -/
inductive Linkage where
  | c
  | cpp
deriving DecidableEq, Repr

/-- Parameter kinds relevant to the entry point's ABI: an opaque
pointer-sized handle, or anything else. -/
inductive ParamKind where
  | opaquePointerHandle
  | other
deriving DecidableEq, Repr

/-- Declared signature of an exported function at the ABI boundary. -/
structure CSignature where
  linkage : Linkage
  params : List ParamKind
  returnsVoid : Bool
deriving DecidableEq, Repr

/-- Signature of `EasySharedPreferencesPluginCApiRegisterWithRegistrar` as
written in the source (lines 7–8): it takes exactly one
`FlutterDesktopPluginRegistrarRef` (an opaque pointer-sized handle) and
returns `void`.  Modelled from the spec: its C linkage, declared in the
plugin's header (not among the provided source files), per the spec's "ABI
boundary: a C-linkage function taking one opaque pointer-sized handle". -/
def entryPointSignature : CSignature :=
  { linkage := Linkage.c
    params := [ParamKind.opaquePointerHandle]
    returnsVoid := true }

end EasySharedPrefs

namespace EasySharedPrefs

/-- C1: for every registrar handle, the entry point's call trace is exactly
the singleton-manager lookup on that handle followed by the delegated plugin
registration with the wrapper that lookup resolved — in that order, with no
other operation. -/
theorem entry_point_trace_is_lookup_then_register
    (pluginRegisterWithRegistrar : PluginRegisterBehavior)
    (mgr : PluginRegistrarManager)
    (registrar : FlutterDesktopPluginRegistrarRef) :
    (EasySharedPreferencesPluginCApiRegisterWithRegistrar
        pluginRegisterWithRegistrar mgr registrar).2.2 =
      [Call.getRegistrar registrar,
       Call.registerWithRegistrar
         (((PluginRegistrarManager.GetInstance mgr).GetRegistrar registrar).1)] :=
  rfl

/-- C2: for every valid registrar handle, one call to the entry point makes
exactly one delegated call to the plugin's registration method, and the
resolved wrapper passed to it is non-null. -/
theorem entry_point_single_register_nonnull
    (pluginRegisterWithRegistrar : PluginRegisterBehavior)
    (mgr : PluginRegistrarManager)
    (registrar : FlutterDesktopPluginRegistrarRef)
    (hvalid : mgr.ValidHandle registrar) :
    ((EasySharedPreferencesPluginCApiRegisterWithRegistrar
        pluginRegisterWithRegistrar mgr registrar).2.2.filter
          Call.isRegisterCall =
      [Call.registerWithRegistrar (mgr.registrars registrar)]) ∧
    mgr.registrars registrar ≠ 0 := by
  exact ⟨rfl, hvalid⟩

/-- Witness for C2 at a concrete manager and handle. -/
theorem entry_point_single_register_nonnull_witness :
    ((EasySharedPreferencesPluginCApiRegisterWithRegistrar
        (fun _ => Except.ok ())
        ⟨fun _ => 1⟩ 42).2.2.filter Call.isRegisterCall =
      [Call.registerWithRegistrar 1]) ∧
    (1 : Nat) ≠ 0 :=
  entry_point_single_register_nonnull (fun _ => Except.ok ())
    ⟨fun _ => 1⟩ 42 (by decide)

/-- C3: the entry point does not mutate the process-wide singleton registrar
manager: the manager state after the call equals the state before it, for
every handle and every behavior of the delegated registration call. -/
theorem entry_point_preserves_manager
    (pluginRegisterWithRegistrar : PluginRegisterBehavior)
    (mgr : PluginRegistrarManager)
    (registrar : FlutterDesktopPluginRegistrarRef) :
    (EasySharedPreferencesPluginCApiRegisterWithRegistrar
        pluginRegisterWithRegistrar mgr registrar).2.1 = mgr :=
  rfl

/-- C4: the entry point has no failure branch of its own: its outcome is
exactly the outcome of the delegated registration call on the resolved
wrapper — it returns normally whenever the delegated call returns normally,
and any error it surfaces is the delegated call's error, unchanged. -/
theorem entry_point_outcome_is_delegated_outcome
    (pluginRegisterWithRegistrar : PluginRegisterBehavior)
    (mgr : PluginRegistrarManager)
    (registrar : FlutterDesktopPluginRegistrarRef) :
    (EasySharedPreferencesPluginCApiRegisterWithRegistrar
        pluginRegisterWithRegistrar mgr registrar).1 =
      pluginRegisterWithRegistrar
        (((PluginRegistrarManager.GetInstance mgr).GetRegistrar registrar).1) :=
  rfl

/-- C5: the entry point's declared signature is a C-linkage function taking
exactly one opaque pointer-sized registrar handle and returning void, and
behaviorally it produces no output value and has no effect of its own: its
outcome is exactly the delegated call's outcome and it leaves the manager
state unchanged. -/
theorem entry_point_signature_and_void_output :
    entryPointSignature.linkage = Linkage.c ∧
    entryPointSignature.params = [ParamKind.opaquePointerHandle] ∧
    entryPointSignature.returnsVoid = true ∧
    ∀ (pluginRegisterWithRegistrar : PluginRegisterBehavior)
      (mgr : PluginRegistrarManager)
      (registrar : FlutterDesktopPluginRegistrarRef),
      (EasySharedPreferencesPluginCApiRegisterWithRegistrar
          pluginRegisterWithRegistrar mgr registrar).1 =
        pluginRegisterWithRegistrar (mgr.registrars registrar) ∧
      (EasySharedPreferencesPluginCApiRegisterWithRegistrar
          pluginRegisterWithRegistrar mgr registrar).2.1 = mgr :=
  ⟨rfl, rfl, rfl, fun _ _ _ => ⟨rfl, rfl⟩⟩

/-- C6: the entry point neither creates nor destroys the host-owned handle:
its trace contains exactly one manager lookup, whose argument is the handle
received, unchanged, and the call stores nothing — the manager state is the
same afterwards. -/
theorem entry_point_passes_handle_unchanged
    (pluginRegisterWithRegistrar : PluginRegisterBehavior)
    (mgr : PluginRegistrarManager)
    (registrar : FlutterDesktopPluginRegistrarRef) :
    ((EasySharedPreferencesPluginCApiRegisterWithRegistrar
        pluginRegisterWithRegistrar mgr registrar).2.2.filter
          Call.isLookupCall =
      [Call.getRegistrar registrar]) ∧
    (EasySharedPreferencesPluginCApiRegisterWithRegistrar
        pluginRegisterWithRegistrar mgr registrar).2.1 = mgr :=
  ⟨rfl, rfl⟩

/-- C7: the entry point validates nothing: for every handle — the null
handle `0` included — the invocation reaches both the manager lookup on that
handle and the delegated registration call on the resolved wrapper, and the
trace has the same shape (two calls) regardless of the handle. -/
theorem entry_point_no_validation
    (pluginRegisterWithRegistrar : PluginRegisterBehavior)
    (mgr : PluginRegistrarManager)
    (registrar : FlutterDesktopPluginRegistrarRef) :
    (Call.getRegistrar registrar ∈
      (EasySharedPreferencesPluginCApiRegisterWithRegistrar
          pluginRegisterWithRegistrar mgr registrar).2.2) ∧
    (Call.registerWithRegistrar (mgr.registrars registrar) ∈
      (EasySharedPreferencesPluginCApiRegisterWithRegistrar
          pluginRegisterWithRegistrar mgr registrar).2.2) ∧
    (EasySharedPreferencesPluginCApiRegisterWithRegistrar
        pluginRegisterWithRegistrar mgr registrar).2.2.length = 2 := by
  refine ⟨?_, ?_, rfl⟩
  · exact List.mem_cons_self _ _
  · exact List.mem_cons_of_mem _ (List.mem_cons_self _ _)

/-- C8: the entry point is deterministic: two invocations with equal handles
and extensionally equal singleton-manager states resolve the same wrapper,
make the identical delegated registration call, and produce identical
outcomes — the behavior depends on nothing but the handle, the manager state
and the delegated call's behavior. -/
theorem entry_point_deterministic
    (pluginRegisterWithRegistrar : PluginRegisterBehavior)
    (mgr₁ mgr₂ : PluginRegistrarManager)
    (registrar₁ registrar₂ : FlutterDesktopPluginRegistrarRef)
    (hmgr : mgr₁.registrars = mgr₂.registrars)
    (hreg : registrar₁ = registrar₂) :
    EasySharedPreferencesPluginCApiRegisterWithRegistrar
        pluginRegisterWithRegistrar mgr₁ registrar₁ =
      EasySharedPreferencesPluginCApiRegisterWithRegistrar
        pluginRegisterWithRegistrar mgr₂ registrar₂ := by
  cases mgr₁
  cases mgr₂
  simp only at hmgr
  subst hmgr
  subst hreg
  rfl

/-- Witness for C8 at concrete managers and handles. -/
theorem entry_point_deterministic_witness :
    EasySharedPreferencesPluginCApiRegisterWithRegistrar
        (fun _ => Except.ok ()) ⟨fun n => n + 1⟩ 3 =
      EasySharedPreferencesPluginCApiRegisterWithRegistrar
        (fun _ => Except.ok ()) ⟨fun n => n + 1⟩ 3 :=
  entry_point_deterministic (fun _ => Except.ok ())
    ⟨fun n => n + 1⟩ ⟨fun n => n + 1⟩ 3 3 rfl rfl

end EasySharedPrefs
